import Mathlib

/-
Verification of the KinectAzureModule wrapper (src/pykinect_module.py).

The module is a thin dispatch layer over the pykinect_azure SDK: it maps
human-readable configuration strings to SDK enum values, owns the device
handle across start/close, and forwards capture and calibration calls.

Embedding conventions:
- The Python object is a record; attribute mutation is explicit state
  passing.  Attributes that do not exist before a method assigns them
  (device_config, device) are Option fields; reading a missing attribute
  is the Python AttributeError, modelled as an Except error.
- print output is returned alongside the new state as a list of lines.
- The external pykinect_azure SDK (an out-of-repository collaborator) is
  modelled by the SDK and Device structures: start_device may fail
  (DeviceUnavailable), a Device yields a stream of captures indexed by how
  many updates have happened, and updating a closed handle is modelled as
  a loud invalidState failure, matching the spec reading of use-after-close
  as a precondition violation.
- numpy image buffers and calibration numbers are stand-in types; only
  their shape matters to the claims.
-/

namespace KinectSpec

/-- SDK color resolution enum constants (pykinect.K4A_COLOR_RESOLUTION_*). -/
inductive ColorResolution where
  | off
  | r720P
  | r1080P
  | r1440P
  | r1536P
  | r2160P
  | r3072P
deriving DecidableEq

/-- SDK depth mode enum constants (pykinect.K4A_DEPTH_MODE_*). -/
inductive DepthMode where
  | off
  | nfov2x2binned
  | nfovUnbinned
  | wfov2x2binned
  | wfovUnbinned
  | passiveIR
deriving DecidableEq

/-- Pixel buffer stand-in: a numpy array or Python None. -/
abbrev Image := Option (List (List Nat))

/-- Numeric matrix stand-in (values are irrelevant to the shape contract). -/
abbrev Mat := List (List Int)

/-- Python exceptions and SDK failures surfaced by the embedding. -/
inductive PyErr where
  | attributeError
  | keyError
  | invalidState
  | deviceUnavailable
deriving DecidableEq

/-- Factory calibration accessors of an opened SDK device. -/
structure Calibration where
  get_matrix : Int → Mat
  get_distortion : List Int

/-- One SDK capture object: accessors return a (success, image) pair each. -/
structure Capture where
  get_color_image : Bool × Image
  get_transformed_depth_image : Bool × Image

/-- Model of an opened SDK device: a stream of captures indexed by the
number of updates performed so far, plus a closed flag. -/
structure Device where
  calibration : Calibration
  frames : Nat → Capture
  ticks : Nat
  closed : Bool

/-- SDK device update: advances the device by exactly one frame.  Updating a
closed handle is a loud precondition failure in this model. -/
def Device.update (d : Device) : Except PyErr (Device × Capture) :=
  if d.closed then .error .invalidState
  else .ok ({ d with ticks := d.ticks + 1 }, d.frames d.ticks)

/-- SDK device close: invalidates the handle. -/
def Device.close (d : Device) : Device :=
  { d with closed := true }

/-- Native configuration record (pykinect.default_configuration and the two
fields the wrapper assigns). -/
structure DeviceConfig where
  color_resolution : ColorResolution
  depth_mode : DepthMode
deriving DecidableEq

/-- pykinect.default_configuration: both relevant fields are overwritten by
start_device before use, so their defaults are the OFF constants. -/
def default_configuration : DeviceConfig :=
  { color_resolution := .off, depth_mode := .off }

/-- The external SDK entry point used by start_device: opening a device at an
index with a configuration either yields a Device or fails. -/
structure SDK where
  start_device : Int → DeviceConfig → Except PyErr Device

/-- State of one KinectAzureModule instance.  device_config and device are
Option because the Python attributes only exist after start_device ran. -/
structure KinectAzureModule where
  device_index : Int
  resolution_map : List (String × ColorResolution)
  depth_mode_map : List (String × DepthMode)
  resolution : ColorResolution
  depth_mode : DepthMode
  device_config : Option DeviceConfig
  device : Option Device
  libraries_ready : Bool

/-- The resolution table built in the constructor (source lines 55-62). -/
def init_resolution_map : List (String × ColorResolution) :=
  [("720P", .r720P), ("1080P", .r1080P), ("1440P", .r1440P),
   ("1536P", .r1536P), ("2160P", .r2160P), ("3072P", .r3072P)]

/-- The depth mode table built in the constructor (source lines 65-72). -/
def init_depth_mode_map : List (String × DepthMode) :=
  [("NFOV_2X2BINNED", .nfov2x2binned), ("NFOV_UNBINNED", .nfovUnbinned),
   ("WFOV_2X2BINNED", .wfov2x2binned), ("WFOV_UNBINNED", .wfovUnbinned),
   ("PASSIVE_IR", .passiveIR)]

/-- KinectAzureModule.set_resolution (source lines 79-90): if the label is a
key of the table take its value, otherwise print a warning and take the
value at key 1080P.  The second component is the printed output; the
fall-through dict access is a KeyError if 1080P were absent. -/
def set_resolution (self : KinectAzureModule) (resolution : String) :
    Except PyErr (KinectAzureModule × List String) :=
  match self.resolution_map.lookup resolution with
  | some v => .ok ({ self with resolution := v }, [])
  | none =>
    match self.resolution_map.lookup "1080P" with
    | some v =>
      .ok ({ self with resolution := v }, ["Invalid resolution. Defaulting to 1080P."])
    | none => .error .keyError

/-- KinectAzureModule.set_depth_mode (source lines 92-103): same pattern with
fallback key NFOV_2X2BINNED. -/
def set_depth_mode (self : KinectAzureModule) (depth_mode : String) :
    Except PyErr (KinectAzureModule × List String) :=
  match self.depth_mode_map.lookup depth_mode with
  | some v => .ok ({ self with depth_mode := v }, [])
  | none =>
    match self.depth_mode_map.lookup "NFOV_2X2BINNED" with
    | some v =>
      .ok ({ self with depth_mode := v }, ["Invalid depth mode. Defaulting to NFOV_2X2BINNED."])
    | none => .error .keyError

/-- The object state right after the constructor stored the device index and
built the two tables (source lines 52-72).  The resolution and depth_mode
fields are placeholders: in Python these attributes do not exist until the
setters assign them, and both setters overwrite them before any read. -/
def init_state (device_index : Int) : KinectAzureModule :=
  { device_index := device_index
    resolution_map := init_resolution_map
    depth_mode_map := init_depth_mode_map
    resolution := .off
    depth_mode := .off
    device_config := none
    device := none
    libraries_ready := false }

/-- KinectAzureModule constructor (source lines 43-77): stores the device
index, builds the two tables, runs both setters, then initializes the SDK
libraries. -/
def init (device_index : Int) (resolution : String) (depth_mode : String) :
    Except PyErr (KinectAzureModule × List String) :=
  match set_resolution (init_state device_index) resolution with
  | .error e => .error e
  | .ok (self1, out1) =>
    match set_depth_mode self1 depth_mode with
    | .error e => .error e
    | .ok (self2, out2) =>
      .ok ({ self2 with libraries_ready := true }, out1 ++ out2)

/-- The native configuration record start_device builds (source lines
110-112): the default configuration with its color_resolution and
depth_mode fields overwritten from the current settings. -/
def start_config (self : KinectAzureModule) : DeviceConfig :=
  { default_configuration with
      color_resolution := self.resolution
      depth_mode := self.depth_mode }

/-- KinectAzureModule.start_device (source lines 105-113): builds the native
configuration record from the current settings and opens the device at the
stored index through the SDK. -/
def start_device (sdk : SDK) (self : KinectAzureModule) :
    Except PyErr KinectAzureModule :=
  match sdk.start_device self.device_index (start_config self) with
  | .ok d =>
    .ok { self with device_config := some (start_config self), device := some d }
  | .error e => .error e

/-- KinectAzureModule.param (source lines 115-125): reads self.device (an
AttributeError when start_device has not run) and returns the calibration
matrix for camera 1 and the distortion coefficients. -/
def param (self : KinectAzureModule) : Except PyErr (Mat × List Int) :=
  match self.device with
  | none => .error .attributeError
  | some d => .ok (d.calibration.get_matrix 1, d.calibration.get_distortion)

/-- KinectAzureModule.capture_loop (source lines 127-140): one device update,
then the color accessor and the depth-aligned-to-color accessor; returns
the four values as the source does.  Reading self.device before start is an
AttributeError. -/
def capture_loop (self : KinectAzureModule) :
    Except PyErr (KinectAzureModule × (Bool × Image × Bool × Image)) :=
  match self.device with
  | none => .error .attributeError
  | some d =>
    match Device.update d with
    | .error e => .error e
    | .ok (d1, capture) =>
      .ok ({ self with device := some d1 },
           (capture.get_color_image.1, capture.get_color_image.2,
            capture.get_transformed_depth_image.1,
            capture.get_transformed_depth_image.2))

/-- KinectAzureModule.close_device (source lines 142-147): closes the owned
device handle; reading self.device before start is an AttributeError. -/
def close_device (self : KinectAzureModule) : Except PyErr KinectAzureModule :=
  match self.device with
  | none => .error .attributeError
  | some d => .ok { self with device := some (Device.close d) }

/-- The supported resolution labels, as the spec lists them. -/
def supported_resolutions : List String :=
  ["720P", "1080P", "1440P", "1536P", "2160P", "3072P"]

/-- The supported depth mode labels, as the spec lists them. -/
def supported_depth_modes : List String :=
  ["NFOV_2X2BINNED", "NFOV_UNBINNED", "WFOV_2X2BINNED", "WFOV_UNBINNED", "PASSIVE_IR"]

/-- Spec-side total resolver, written from the words of the spec: each
supported label maps to its matching enum, anything else to 1080P. -/
def spec_resolve_resolution (label : String) : ColorResolution :=
  if label = "720P" then .r720P
  else if label = "1080P" then .r1080P
  else if label = "1440P" then .r1440P
  else if label = "1536P" then .r1536P
  else if label = "2160P" then .r2160P
  else if label = "3072P" then .r3072P
  else .r1080P

/-- Spec-side total resolver for depth modes: each supported label maps to
its matching enum, anything else to NFOV_2X2BINNED. -/
def spec_resolve_depth_mode (label : String) : DepthMode :=
  if label = "NFOV_2X2BINNED" then .nfov2x2binned
  else if label = "NFOV_UNBINNED" then .nfovUnbinned
  else if label = "WFOV_2X2BINNED" then .wfov2x2binned
  else if label = "WFOV_UNBINNED" then .wfovUnbinned
  else if label = "PASSIVE_IR" then .passiveIR
  else .nfov2x2binned

/-- Shape contract for an intrinsic matrix: three rows of three entries. -/
def mat_is_3x3 (M : Mat) : Prop :=
  M.length = 3 ∧ ∀ row ∈ M, row.length = 3

/-- Shape contract assumed of the external SDK: every successfully opened
device reports a 3x3 intrinsic matrix and a non-empty distortion vector
from its factory calibration. -/
def sdk_shape_ok (sdk : SDK) : Prop :=
  ∀ i cfg d, sdk.start_device i cfg = .ok d →
    mat_is_3x3 (d.calibration.get_matrix 1) ∧ d.calibration.get_distortion ≠ []

/-- Concrete calibration fixture used by witnesses. -/
def cal0 : Calibration :=
  { get_matrix := fun _ => [[520, 0, 960], [0, 520, 540], [0, 0, 1]]
    get_distortion := [1, 0, 0, 0, 0, 0, 0, 0] }

/-- A capture on which both accessors succeed. -/
def cap_ok : Capture :=
  { get_color_image := (true, some [[7]])
    get_transformed_depth_image := (true, some [[9]]) }

/-- A capture on which both accessors fail. -/
def cap_fail : Capture :=
  { get_color_image := (false, none)
    get_transformed_depth_image := (false, none) }

/-- A capture with prescribed success flags for the two accessors. -/
def flag_capture (bc bd : Bool) : Capture :=
  { get_color_image := (bc, none)
    get_transformed_depth_image := (bd, none) }

/-- A device whose every update succeeds. -/
def dev0 : Device :=
  { calibration := cal0, frames := fun _ => cap_ok, ticks := 0, closed := false }

/-- A device whose first update fails and later updates succeed. -/
def dev_fail_first : Device :=
  { calibration := cal0
    frames := fun n => if n = 0 then cap_fail else cap_ok
    ticks := 0
    closed := false }

/-- A device reporting prescribed success flags on every update. -/
def flag_device (bc bd : Bool) : Device :=
  { calibration := cal0, frames := fun _ => flag_capture bc bd, ticks := 0, closed := false }

/-- An SDK in which opening a device always succeeds and yields dev0. -/
def sdk0 : SDK :=
  { start_device := fun _ _ => .ok dev0 }

/-- An SDK in which no matching hardware is available. -/
def sdk_down : SDK :=
  { start_device := fun _ _ => .error .deviceUnavailable }

/-- A freshly constructed module with default settings, not yet started. -/
def m0 : KinectAzureModule :=
  { device_index := 0
    resolution_map := init_resolution_map
    depth_mode_map := init_depth_mode_map
    resolution := .r1080P
    depth_mode := .nfov2x2binned
    device_config := none
    device := none
    libraries_ready := true }

/-- m0 after a successful start against sdk0. -/
def m_started : KinectAzureModule :=
  { m0 with
      device_config := some { color_resolution := .r1080P, depth_mode := .nfov2x2binned }
      device := some dev0 }

/-- m0 started against a device whose first update fails. -/
def m_fail_first : KinectAzureModule :=
  { m0 with device := some dev_fail_first }

theorem string_beq_decide (a b : String) : (a == b) = decide (a = b) := rfl

theorem lookup_init_resolution_map (label : String) :
    init_resolution_map.lookup label =
      if label = "720P" then some .r720P
      else if label = "1080P" then some .r1080P
      else if label = "1440P" then some .r1440P
      else if label = "1536P" then some .r1536P
      else if label = "2160P" then some .r2160P
      else if label = "3072P" then some .r3072P
      else none := by
  simp only [init_resolution_map, List.lookup]
  by_cases h1 : label = "720P" <;> by_cases h2 : label = "1080P" <;>
    by_cases h3 : label = "1440P" <;> by_cases h4 : label = "1536P" <;>
    by_cases h5 : label = "2160P" <;> by_cases h6 : label = "3072P" <;>
    simp_all [string_beq_decide]

theorem lookup_init_depth_mode_map (label : String) :
    init_depth_mode_map.lookup label =
      if label = "NFOV_2X2BINNED" then some .nfov2x2binned
      else if label = "NFOV_UNBINNED" then some .nfovUnbinned
      else if label = "WFOV_2X2BINNED" then some .wfov2x2binned
      else if label = "WFOV_UNBINNED" then some .wfovUnbinned
      else if label = "PASSIVE_IR" then some .passiveIR
      else none := by
  simp only [init_depth_mode_map, List.lookup]
  by_cases h1 : label = "NFOV_2X2BINNED" <;> by_cases h2 : label = "NFOV_UNBINNED" <;>
    by_cases h3 : label = "WFOV_2X2BINNED" <;> by_cases h4 : label = "WFOV_UNBINNED" <;>
    by_cases h5 : label = "PASSIVE_IR" <;>
    simp_all [string_beq_decide]

theorem set_resolution_eq (m : KinectAzureModule) (label : String)
    (hmap : m.resolution_map = init_resolution_map) :
    set_resolution m label =
      .ok ({ m with resolution := spec_resolve_resolution label },
        if label ∈ supported_resolutions then []
        else ["Invalid resolution. Defaulting to 1080P."]) := by
  unfold set_resolution
  rw [hmap, lookup_init_resolution_map, lookup_init_resolution_map]
  by_cases h1 : label = "720P" <;> by_cases h2 : label = "1080P" <;>
    by_cases h3 : label = "1440P" <;> by_cases h4 : label = "1536P" <;>
    by_cases h5 : label = "2160P" <;> by_cases h6 : label = "3072P" <;>
    simp_all [spec_resolve_resolution, supported_resolutions]

theorem set_depth_mode_eq (m : KinectAzureModule) (label : String)
    (hmap : m.depth_mode_map = init_depth_mode_map) :
    set_depth_mode m label =
      .ok ({ m with depth_mode := spec_resolve_depth_mode label },
        if label ∈ supported_depth_modes then []
        else ["Invalid depth mode. Defaulting to NFOV_2X2BINNED."]) := by
  unfold set_depth_mode
  rw [hmap, lookup_init_depth_mode_map, lookup_init_depth_mode_map]
  by_cases h1 : label = "NFOV_2X2BINNED" <;> by_cases h2 : label = "NFOV_UNBINNED" <;>
    by_cases h3 : label = "WFOV_2X2BINNED" <;> by_cases h4 : label = "WFOV_UNBINNED" <;>
    by_cases h5 : label = "PASSIVE_IR" <;>
    simp_all [spec_resolve_depth_mode, supported_depth_modes]

theorem spec_resolve_resolution_mem (label : String) :
    ∃ k, (k, spec_resolve_resolution label) ∈ init_resolution_map := by
  unfold spec_resolve_resolution
  split_ifs <;>
    first
    | exact ⟨"720P", by decide⟩
    | exact ⟨"1080P", by decide⟩
    | exact ⟨"1440P", by decide⟩
    | exact ⟨"1536P", by decide⟩
    | exact ⟨"2160P", by decide⟩
    | exact ⟨"3072P", by decide⟩

theorem spec_resolve_depth_mode_mem (label : String) :
    ∃ k, (k, spec_resolve_depth_mode label) ∈ init_depth_mode_map := by
  unfold spec_resolve_depth_mode
  split_ifs <;>
    first
    | exact ⟨"NFOV_2X2BINNED", by decide⟩
    | exact ⟨"NFOV_UNBINNED", by decide⟩
    | exact ⟨"WFOV_2X2BINNED", by decide⟩
    | exact ⟨"WFOV_UNBINNED", by decide⟩
    | exact ⟨"PASSIVE_IR", by decide⟩

theorem init_eq (i : Int) (r dm : String) :
    init i r dm =
      .ok ({ device_index := i
             resolution_map := init_resolution_map
             depth_mode_map := init_depth_mode_map
             resolution := spec_resolve_resolution r
             depth_mode := spec_resolve_depth_mode dm
             device_config := none
             device := none
             libraries_ready := true },
        (if r ∈ supported_resolutions then []
         else ["Invalid resolution. Defaulting to 1080P."]) ++
        (if dm ∈ supported_depth_modes then []
         else ["Invalid depth mode. Defaulting to NFOV_2X2BINNED."])) := by
  simp only [init, set_resolution_eq (init_state i) r rfl]
  simp only [set_depth_mode_eq { init_state i with resolution := spec_resolve_resolution r } dm rfl]
  rfl

/-- C1: for every supported resolution label, set_resolution selects exactly
the matching SDK enum; for any other label it falls back to the 1080P enum
and does not raise (it returns normally, printing the warning line). -/
theorem set_resolution_selects_label_or_1080P (m : KinectAzureModule) (label : String)
    (hmap : m.resolution_map = init_resolution_map) :
    set_resolution m label =
      .ok ({ m with resolution := spec_resolve_resolution label },
        if label ∈ supported_resolutions then []
        else ["Invalid resolution. Defaulting to 1080P."]) :=
  set_resolution_eq m label hmap

/-- Witness for C1: on the supported label 3072P the matching enum is chosen,
and on the unsupported label 4K the module falls back to 1080P. -/
theorem set_resolution_selects_label_or_1080P_witness :
    set_resolution m0 "3072P" = .ok ({ m0 with resolution := .r3072P }, []) ∧
    set_resolution m0 "4K" =
      .ok ({ m0 with resolution := .r1080P },
        ["Invalid resolution. Defaulting to 1080P."]) := by
  constructor
  · have h := set_resolution_selects_label_or_1080P m0 "3072P" rfl
    simpa [spec_resolve_resolution, supported_resolutions] using h
  · have h := set_resolution_selects_label_or_1080P m0 "4K" rfl
    simpa [spec_resolve_resolution, supported_resolutions] using h

/-- C2: for every supported depth mode label, set_depth_mode selects exactly
the matching SDK enum; for any other label it falls back to NFOV_2X2BINNED
and does not raise (it returns normally, printing the warning line). -/
theorem set_depth_mode_selects_label_or_nfov (m : KinectAzureModule) (label : String)
    (hmap : m.depth_mode_map = init_depth_mode_map) :
    set_depth_mode m label =
      .ok ({ m with depth_mode := spec_resolve_depth_mode label },
        if label ∈ supported_depth_modes then []
        else ["Invalid depth mode. Defaulting to NFOV_2X2BINNED."]) :=
  set_depth_mode_eq m label hmap

/-- Witness for C2: on the supported label PASSIVE_IR the matching enum is
chosen, and on an unsupported label the module falls back to NFOV_2X2BINNED. -/
theorem set_depth_mode_selects_label_or_nfov_witness :
    set_depth_mode m0 "PASSIVE_IR" = .ok ({ m0 with depth_mode := .passiveIR }, []) ∧
    set_depth_mode m0 "ULTRAWIDE" =
      .ok ({ m0 with depth_mode := .nfov2x2binned },
        ["Invalid depth mode. Defaulting to NFOV_2X2BINNED."]) := by
  constructor
  · have h := set_depth_mode_selects_label_or_nfov m0 "PASSIVE_IR" rfl
    simpa [spec_resolve_depth_mode, supported_depth_modes] using h
  · have h := set_depth_mode_selects_label_or_nfov m0 "ULTRAWIDE" rfl
    simpa [spec_resolve_depth_mode, supported_depth_modes] using h

/-- C9: for any device index and any pair of label strings, the constructor
returns normally, the resolution field holds a value of the resolution
table, and the depth mode field holds a value of the depth mode table. -/
theorem init_fields_come_from_maps (i : Int) (r dm : String) :
    ∃ m out, init i r dm = .ok (m, out) ∧
      (∃ k, (k, m.resolution) ∈ m.resolution_map) ∧
      (∃ k, (k, m.depth_mode) ∈ m.depth_mode_map) := by
  refine ⟨_, _, init_eq i r dm, ?_, ?_⟩
  · exact spec_resolve_resolution_mem r
  · exact spec_resolve_depth_mode_mem dm

/-- C10: set_resolution changes nothing but the resolution field, and
set_depth_mode changes nothing but the depth mode field; in particular the
other selection, the device index and both lookup tables are untouched. -/
theorem setters_change_only_their_field (m : KinectAzureModule) (label : String) :
    (∀ m1 out, set_resolution m label = .ok (m1, out) →
      m1.depth_mode = m.depth_mode ∧ m1.device_index = m.device_index ∧
      m1.resolution_map = m.resolution_map ∧ m1.depth_mode_map = m.depth_mode_map) ∧
    (∀ m1 out, set_depth_mode m label = .ok (m1, out) →
      m1.resolution = m.resolution ∧ m1.device_index = m.device_index ∧
      m1.resolution_map = m.resolution_map ∧ m1.depth_mode_map = m.depth_mode_map) := by
  constructor
  · intro m1 out h
    unfold set_resolution at h
    cases hl : m.resolution_map.lookup label with
    | some v =>
      rw [hl] at h
      simp only [Except.ok.injEq, Prod.mk.injEq] at h
      obtain ⟨h1, -⟩ := h
      subst h1
      exact ⟨rfl, rfl, rfl, rfl⟩
    | none =>
      rw [hl] at h
      cases hl2 : m.resolution_map.lookup "1080P" with
      | some v =>
        rw [hl2] at h
        simp only [Except.ok.injEq, Prod.mk.injEq] at h
        obtain ⟨h1, -⟩ := h
        subst h1
        exact ⟨rfl, rfl, rfl, rfl⟩
      | none =>
        rw [hl2] at h
        simp at h
  · intro m1 out h
    unfold set_depth_mode at h
    cases hl : m.depth_mode_map.lookup label with
    | some v =>
      rw [hl] at h
      simp only [Except.ok.injEq, Prod.mk.injEq] at h
      obtain ⟨h1, -⟩ := h
      subst h1
      exact ⟨rfl, rfl, rfl, rfl⟩
    | none =>
      rw [hl] at h
      cases hl2 : m.depth_mode_map.lookup "NFOV_2X2BINNED" with
      | some v =>
        rw [hl2] at h
        simp only [Except.ok.injEq, Prod.mk.injEq] at h
        obtain ⟨h1, -⟩ := h
        subst h1
        exact ⟨rfl, rfl, rfl, rfl⟩
      | none =>
        rw [hl2] at h
        simp at h

/-- Witness for C10: both setters run on a concrete module and the frame
conditions hold there. -/
theorem setters_change_only_their_field_witness :
    (m0.resolution_map = m0.resolution_map ∧ m0.device_index = m0.device_index) ∧
    ({ m0 with resolution := ColorResolution.r720P }.depth_mode = m0.depth_mode ∧
      { m0 with resolution := ColorResolution.r720P }.device_index = m0.device_index ∧
      { m0 with resolution := ColorResolution.r720P }.resolution_map = m0.resolution_map ∧
      { m0 with resolution := ColorResolution.r720P }.depth_mode_map = m0.depth_mode_map) ∧
    ({ m0 with depth_mode := DepthMode.passiveIR }.resolution = m0.resolution ∧
      { m0 with depth_mode := DepthMode.passiveIR }.device_index = m0.device_index ∧
      { m0 with depth_mode := DepthMode.passiveIR }.resolution_map = m0.resolution_map ∧
      { m0 with depth_mode := DepthMode.passiveIR }.depth_mode_map = m0.depth_mode_map) := by
  refine ⟨⟨rfl, rfl⟩, ?_, ?_⟩
  · exact (setters_change_only_their_field m0 "720P").1
      { m0 with resolution := ColorResolution.r720P } [] rfl
  · exact (setters_change_only_their_field m0 "PASSIVE_IR").2
      { m0 with depth_mode := DepthMode.passiveIR } [] rfl

theorem capture_loop_eq (m : KinectAzureModule) (d : Device)
    (hdev : m.device = some d) (hopen : d.closed = false) :
    capture_loop m =
      .ok ({ m with device := some { d with ticks := d.ticks + 1 } },
        ((d.frames d.ticks).get_color_image.1,
         (d.frames d.ticks).get_color_image.2,
         (d.frames d.ticks).get_transformed_depth_image.1,
         (d.frames d.ticks).get_transformed_depth_image.2)) := by
  simp [capture_loop, hdev, Device.update, hopen]

theorem sdk0_shape_ok : sdk_shape_ok sdk0 := by
  intro i cfg d h
  simp only [sdk0] at h
  injection h with h
  subst h
  refine ⟨⟨rfl, ?_⟩, by decide⟩
  decide

/-- C3: calling param before start_device fails loudly (the AttributeError on
the missing device attribute realizes the NotStarted failure of the spec
taxonomy); after a successful start against an SDK whose factory
calibration meets the shape contract, param returns a 3x3 intrinsic matrix
and a non-empty distortion coefficient vector. -/
theorem param_requires_start_and_returns_shapes (sdk : SDK) (m : KinectAzureModule)
    (hsdk : sdk_shape_ok sdk) :
    (m.device = none → param m = .error .attributeError) ∧
    (∀ m1, start_device sdk m = .ok m1 →
      ∃ matrix distortion, param m1 = .ok (matrix, distortion) ∧
        mat_is_3x3 matrix ∧ distortion ≠ []) := by
  constructor
  · intro h
    simp [param, h]
  · intro m1 hstart
    unfold start_device at hstart
    cases hcase : sdk.start_device m.device_index (start_config m) with
    | error e => rw [hcase] at hstart; simp at hstart
    | ok d =>
      rw [hcase] at hstart
      simp only [Except.ok.injEq] at hstart
      subst hstart
      refine ⟨d.calibration.get_matrix 1, d.calibration.get_distortion, ?_, ?_, ?_⟩
      · simp [param]
      · exact (hsdk _ _ _ hcase).1
      · exact (hsdk _ _ _ hcase).2

/-- Witness for C3: a fresh module fails with the missing-attribute error,
and the started fixture returns well-shaped calibration data. -/
theorem param_requires_start_and_returns_shapes_witness :
    param m0 = .error .attributeError ∧
    ∃ matrix distortion, param m_started = .ok (matrix, distortion) ∧
      mat_is_3x3 matrix ∧ distortion ≠ [] := by
  have h := param_requires_start_and_returns_shapes sdk0 m0 sdk0_shape_ok
  exact ⟨h.1 rfl, h.2 m_started rfl⟩

/-- C4: calling capture_loop before start_device fails loudly with the
AttributeError on the missing device attribute, and calling it after
close_device fails loudly with the modelled use-after-close failure; both
realize the InvalidState precondition violation of the spec taxonomy. -/
theorem capture_loop_requires_open_device (m : KinectAzureModule) :
    (m.device = none → capture_loop m = .error .attributeError) ∧
    (∀ m1, close_device m = .ok m1 → capture_loop m1 = .error .invalidState) := by
  constructor
  · intro h
    simp [capture_loop, h]
  · intro m1 hclose
    unfold close_device at hclose
    cases hdev : m.device with
    | none => rw [hdev] at hclose; simp at hclose
    | some d =>
      rw [hdev] at hclose
      simp only [Except.ok.injEq] at hclose
      subst hclose
      simp [capture_loop, Device.update, Device.close]

/-- Witness for C4: the fresh module fixture and the closed fixture both make
capture_loop fail as stated. -/
theorem capture_loop_requires_open_device_witness :
    capture_loop m0 = .error .attributeError ∧
    capture_loop { m_started with device := some (Device.close dev0) } =
      .error .invalidState := by
  constructor
  · exact (capture_loop_requires_open_device m0).1 rfl
  · exact (capture_loop_requires_open_device m_started).2
      { m_started with device := some (Device.close dev0) } rfl

/-- C5: on a started open device, capture_loop returns exactly the color pair
and the depth-aligned-to-color pair the device reports for the current
frame, the two success flags taken independently from the two accessors;
every combination of the two flags is realizable. -/
theorem capture_loop_returns_device_flags :
    (∀ m d, m.device = some d → d.closed = false →
      capture_loop m =
        .ok ({ m with device := some { d with ticks := d.ticks + 1 } },
          ((d.frames d.ticks).get_color_image.1,
           (d.frames d.ticks).get_color_image.2,
           (d.frames d.ticks).get_transformed_depth_image.1,
           (d.frames d.ticks).get_transformed_depth_image.2))) ∧
    (∀ bc bd : Bool, ∃ m out, capture_loop m = .ok out ∧
      out.2.1 = bc ∧ out.2.2.2.1 = bd) := by
  constructor
  · exact capture_loop_eq
  · intro bc bd
    exact ⟨{ m0 with device := some (flag_device bc bd) }, _, rfl, rfl, rfl⟩

/-- Witness for C5: the started fixture returns exactly the flags and images
its device reports. -/
theorem capture_loop_returns_device_flags_witness :
    capture_loop m_started =
      .ok ({ m_started with device := some { dev0 with ticks := dev0.ticks + 1 } },
        ((dev0.frames dev0.ticks).get_color_image.1,
         (dev0.frames dev0.ticks).get_color_image.2,
         (dev0.frames dev0.ticks).get_transformed_depth_image.1,
         (dev0.frames dev0.ticks).get_transformed_depth_image.2)) :=
  capture_loop_returns_device_flags.1 m_started dev0 rfl rfl

/-- C6: when the device reports color failure on the current update,
capture_loop returns (false, _) without raising and advances the device by
exactly one update, performing no retry of its own; when the next update
succeeds, the next capture_loop call returns (true, image) again. -/
theorem capture_loop_failure_then_recovery (m : KinectAzureModule) (d : Device)
    (hdev : m.device = some d) (hopen : d.closed = false)
    (hfail : (d.frames d.ticks).get_color_image.1 = false)
    (hnext : (d.frames (d.ticks + 1)).get_color_image.1 = true) :
    ∃ m1 img1 rd1 dimg1,
      capture_loop m = .ok (m1, (false, img1, rd1, dimg1)) ∧
      m1.device = some { d with ticks := d.ticks + 1 } ∧
      ∃ m2 img2 rd2 dimg2,
        capture_loop m1 = .ok (m2, (true, img2, rd2, dimg2)) := by
  have h1 := capture_loop_eq m d hdev hopen
  rw [hfail] at h1
  refine ⟨_, _, _, _, h1, rfl, ?_⟩
  have hopen1 : ({ d with ticks := d.ticks + 1 } : Device).closed = false := hopen
  have hnext1 : (({ d with ticks := d.ticks + 1 } : Device).frames
      ({ d with ticks := d.ticks + 1 } : Device).ticks).get_color_image.1 = true := hnext
  have h2 := capture_loop_eq { m with device := some { d with ticks := d.ticks + 1 } }
    { d with ticks := d.ticks + 1 } rfl hopen1
  rw [hnext1] at h2
  exact ⟨_, _, _, _, h2⟩

/-- Witness for C6: a device failing on its first update and succeeding on
the second exhibits the failure surfaced as a flag and the recovery. -/
theorem capture_loop_failure_then_recovery_witness :
    ∃ m1 img1 rd1 dimg1,
      capture_loop m_fail_first = .ok (m1, (false, img1, rd1, dimg1)) ∧
      m1.device = some { dev_fail_first with ticks := dev_fail_first.ticks + 1 } ∧
      ∃ m2 img2 rd2 dimg2,
        capture_loop m1 = .ok (m2, (true, img2, rd2, dimg2)) :=
  capture_loop_failure_then_recovery m_fail_first dev_fail_first rfl rfl rfl rfl

/-- C7: set_resolution and set_depth_mode leave the native configuration
record and the open device untouched, and a successful start stores a
configuration built from the settings resolved at start time together with
the device the SDK opened for exactly that configuration. -/
theorem started_config_unaffected_by_setters (sdk : SDK) (m : KinectAzureModule)
    (label : String) :
    (∀ m1 out, set_resolution m label = .ok (m1, out) →
      m1.device = m.device ∧ m1.device_config = m.device_config) ∧
    (∀ m1 out, set_depth_mode m label = .ok (m1, out) →
      m1.device = m.device ∧ m1.device_config = m.device_config) ∧
    (∀ m1, start_device sdk m = .ok m1 →
      m1.device_config = some (start_config m) ∧
      ∃ d, sdk.start_device m.device_index (start_config m) = .ok d ∧
        m1.device = some d) := by
  refine ⟨?_, ?_, ?_⟩
  · intro m1 out h
    unfold set_resolution at h
    cases hl : m.resolution_map.lookup label with
    | some v =>
      rw [hl] at h
      simp only [Except.ok.injEq, Prod.mk.injEq] at h
      obtain ⟨h1, -⟩ := h
      subst h1
      exact ⟨rfl, rfl⟩
    | none =>
      rw [hl] at h
      cases hl2 : m.resolution_map.lookup "1080P" with
      | some v =>
        rw [hl2] at h
        simp only [Except.ok.injEq, Prod.mk.injEq] at h
        obtain ⟨h1, -⟩ := h
        subst h1
        exact ⟨rfl, rfl⟩
      | none =>
        rw [hl2] at h
        simp at h
  · intro m1 out h
    unfold set_depth_mode at h
    cases hl : m.depth_mode_map.lookup label with
    | some v =>
      rw [hl] at h
      simp only [Except.ok.injEq, Prod.mk.injEq] at h
      obtain ⟨h1, -⟩ := h
      subst h1
      exact ⟨rfl, rfl⟩
    | none =>
      rw [hl] at h
      cases hl2 : m.depth_mode_map.lookup "NFOV_2X2BINNED" with
      | some v =>
        rw [hl2] at h
        simp only [Except.ok.injEq, Prod.mk.injEq] at h
        obtain ⟨h1, -⟩ := h
        subst h1
        exact ⟨rfl, rfl⟩
      | none =>
        rw [hl2] at h
        simp at h
  · intro m1 h
    unfold start_device at h
    cases hcase : sdk.start_device m.device_index (start_config m) with
    | error e => rw [hcase] at h; simp at h
    | ok d =>
      rw [hcase] at h
      simp only [Except.ok.injEq] at h
      subst h
      exact ⟨rfl, d, rfl, rfl⟩

/-- Witness for C7: the setters run on the started fixture without touching
its device or configuration, and the fixture itself carries the start-time
configuration and device. -/
theorem started_config_unaffected_by_setters_witness :
    ({ m_started with resolution := ColorResolution.r720P }.device = m_started.device ∧
      { m_started with resolution := ColorResolution.r720P }.device_config =
        m_started.device_config) ∧
    ({ m_started with depth_mode := DepthMode.passiveIR }.device = m_started.device ∧
      { m_started with depth_mode := DepthMode.passiveIR }.device_config =
        m_started.device_config) ∧
    (m_started.device_config = some (start_config m0) ∧
      ∃ d, sdk0.start_device m0.device_index (start_config m0) = .ok d ∧
        m_started.device = some d) := by
  refine ⟨?_, ?_, ?_⟩
  · exact (started_config_unaffected_by_setters sdk0 m_started "720P").1
      { m_started with resolution := ColorResolution.r720P } [] rfl
  · exact (started_config_unaffected_by_setters sdk0 m_started "PASSIVE_IR").2.1
      { m_started with depth_mode := DepthMode.passiveIR } [] rfl
  · exact (started_config_unaffected_by_setters sdk0 m0 "1080P").2.2 m_started rfl

/-- C8: the configuration record start_device builds carries exactly the
current resolution and depth mode settings; when the SDK opens a device for
it at the stored index the module records both, and when no matching
hardware is available the DeviceUnavailable failure surfaces unchanged. -/
theorem start_device_builds_config_and_surfaces_unavailable (sdk : SDK)
    (m : KinectAzureModule) :
    (start_config m).color_resolution = m.resolution ∧
    (start_config m).depth_mode = m.depth_mode ∧
    (∀ d, sdk.start_device m.device_index (start_config m) = .ok d →
      start_device sdk m =
        .ok { m with device_config := some (start_config m), device := some d }) ∧
    (sdk.start_device m.device_index (start_config m) = .error .deviceUnavailable →
      start_device sdk m = .error .deviceUnavailable) := by
  refine ⟨rfl, rfl, ?_, ?_⟩
  · intro d h
    unfold start_device
    rw [h]
  · intro h
    unfold start_device
    rw [h]

/-- Witness for C8: against an SDK with hardware present start succeeds and
stores the built configuration and device; against an SDK with no hardware
the DeviceUnavailable failure surfaces. -/
theorem start_device_builds_config_and_surfaces_unavailable_witness :
    start_device sdk0 m0 =
      .ok { m0 with device_config := some (start_config m0), device := some dev0 } ∧
    start_device sdk_down m0 = .error .deviceUnavailable := by
  constructor
  · exact (start_device_builds_config_and_surfaces_unavailable sdk0 m0).2.2.1 dev0 rfl
  · exact (start_device_builds_config_and_surfaces_unavailable sdk_down m0).2.2.2 rfl

end KinectSpec
